import Mathlib

/-!
The 3D coverflow carousel of `js/templatemo-3d-coverflow-scripts.js`.

A shallow embedding of the carousel controller: the module-level bindings, the
part of the document the script writes to, and the browser's timer queue are
fields of one `State`; every function and event handler of the script is a
function on that state.

Conventions.
* JavaScript numbers that only ever hold integers (`currentIndex`, `offset`,
  indices, pixel coordinates) are `Int`; `%` is the truncating remainder
  `Int.tmod`.  `x % 0` is `NaN` in JavaScript, which is not represented: results
  about `navigate` changing the index assume at least one item.
* `items.length / 2`, `0.2` and `0.1` are taken over exact rationals (`ℚ`), not
  over binary floating point.
* A handler that throws ends there; what it wrote before the throw stays.
  `Outcome` records which of the two happened.
-/

namespace Coverflow

/-- One entry of `imageData` (lines 23-31). -/
structure Slide where
  title : String
  description : String
deriving DecidableEq, Repr

/-- The caption table of the source, lines 23-31. -/
def imageData : List Slide :=
  [ { title := "Mountain Landscape", description := "Majestic peaks covered in snow during golden hour" },
    { title := "Forest Path", description := "A winding trail through ancient woodland" },
    { title := "Lake Reflection", description := "Serene waters mirroring the surrounding landscape" },
    { title := "Ocean Sunset", description := "Golden hour over endless ocean waves" },
    { title := "Desert Dunes", description := "Rolling sand dunes under vast blue skies" },
    { title := "Starry Night", description := "Countless stars illuminating the dark sky" },
    { title := "Waterfall", description := "Cascading water through lush green forest" } ]

/-- What `updateCoverflow` writes on one `.coverflow-item` (lines 83-91): the four
components of `style.transform`, `style.opacity`, `style.zIndex` and the
`active` class. -/
structure ItemView where
  translateX : Int
  translateZ : Int
  rotateY : Int
  scale : ℚ
  opacity : ℚ
  zIndex : Int
  active : Bool
deriving DecidableEq

/-- The script's module-level bindings, the document parts it writes, and the
pending timers of the browser.

`imageData` is a `const` of the source; it is a field here so that results hold
for a caption table of any length, `pageLoad` installing the source's table. -/
structure State where
  /-- The binding `imageData`. -/
  imageData : List Slide
  /-- The binding `items`: the `.coverflow-item` elements of the page, as last rendered. -/
  items : List ItemView
  /-- The binding `dots`: the `active` class of each `.dot`. -/
  dots : List Bool
  /-- Text of `currentTitle`. -/
  currentTitle : String
  /-- Text of `currentDescription`. -/
  currentDescription : String
  /-- Value of `currentTitle.style.animation`, always that of `currentDescription` too. -/
  captionAnimation : String
  /-- Value of `playIcon.style.display`. -/
  playIconDisplay : String
  /-- Value of `pauseIcon.style.display`. -/
  pauseIconDisplay : String
  currentIndex : Int
  isAnimating : Bool
  autoplayInterval : Option Nat
  isPlaying : Bool
  touchStartX : Int
  touchStartY : Int
  isSwiping : Bool
  /-- Number of pending `setTimeout(() => (isAnimating = false), 600)` callbacks. -/
  timeouts : Nat
  /-- Number of pending `requestAnimationFrame` callbacks of line 101. -/
  frames : Nat
  /-- Identifiers of the repeating timers started by `setInterval` and not cleared. -/
  intervals : List Nat
  /-- Identifier the next `setInterval` returns. -/
  nextTimerId : Nat

/-- How a call ended: it returned, or it threw; either way with the state it left. -/
inductive Outcome where
  | returned (s : State)
  | threw (s : State)

/-- The state a call left behind. -/
def Outcome.state : Outcome → State
  | .returned s => s
  | .threw s => s

/-- Whether the call threw. -/
def Outcome.isThrow : Outcome → Bool
  | .returned _ => false
  | .threw _ => true

/-- Sequencing of statements: the rest runs only when the first part returned. -/
def Outcome.andThen (o : Outcome) (rest : State → Outcome) : Outcome :=
  match o with
  | .returned s => rest s
  | .threw s => .threw s

/-- Lines 69-72: the offset of the item at `index` from `currentIndex`, with
`length = items.length`. -/
def wrapOffset (length : Nat) (index currentIndex : Int) : Int :=
  let offset := index - currentIndex
  if ((offset : Int) : ℚ) > (length : ℚ) / 2 then offset - length
  else if ((offset : Int) : ℚ) < -(length : ℚ) / 2 then offset + length
  else offset

/-- Line 80: `absOffset > 3 ? 0 : 1 - absOffset * 0.2`. -/
def opacityOf (offset : Int) : ℚ :=
  if |offset| > 3 then 0 else 1 - ((|offset| : Int) : ℚ) * 0.2

/-- Lines 74-91: what one item gets for a given (wrapped) offset; `active` is
`index === currentIndex`. -/
def itemView (offset : Int) (active : Bool) : ItemView :=
  let absOffset := |offset|
  let sign := Int.sign offset
  { translateX := offset * 220
    translateZ := -absOffset * 200
    rotateY := -sign * min (absOffset * 60) 60
    opacity := opacityOf offset
    scale := 1 - ((absOffset : Int) : ℚ) * 0.1
    zIndex := 100 - absOffset
    active := active }

/-- The body of `items.forEach` (lines 68-92) for the item at `index`. -/
def renderItem (length : Nat) (currentIndex : Int) (index : Nat) : ItemView :=
  itemView (wrapOffset length index currentIndex) (decide ((index : Int) = currentIndex))

/-- Lookup `imageData[currentIndex]`: `none` is the `undefined` of JavaScript. -/
def slideAt (slides : List Slide) (currentIndex : Int) : Option Slide :=
  if 0 ≤ currentIndex then slides[currentIndex.toNat]? else none

/-- Function `updateCoverflow` (lines 64-107).  Destructuring `imageData[currentIndex]`
throws a `TypeError` when there is no such entry; by then the items and dots are
rendered and `isAnimating` is set, and the lock-clearing timer is not yet armed. -/
def updateCoverflow (s : State) : Outcome :=
  if s.isAnimating then .returned s
  else
    let s1 : State :=
      { s with
        isAnimating := true
        items := s.items.mapIdx fun index _ => renderItem s.items.length s.currentIndex index
        dots := s.dots.mapIdx fun index _ => decide ((index : Int) = s.currentIndex) }
    match slideAt s.imageData s.currentIndex with
    | none => .threw s1
    | some slide =>
      .returned
        { s1 with
          currentTitle := slide.title
          currentDescription := slide.description
          captionAnimation := "none"
          frames := s1.frames + 1
          timeouts := s1.timeouts + 1 }

/-- Function `navigate` (lines 109-113). -/
def navigate (direction : Int) (s : State) : Outcome :=
  if s.isAnimating then .returned s
  else
    updateCoverflow
      { s with
        currentIndex := (s.currentIndex + direction + s.items.length).tmod s.items.length }

/-- Function `goToIndex` (lines 115-120). -/
def goToIndex (index : Int) (s : State) : Outcome :=
  if !s.isAnimating && index != s.currentIndex then
    updateCoverflow { s with currentIndex := index }
  else .returned s

/-- Function `startAutoplay` (lines 157-162). -/
def startAutoplay (s : State) : State :=
  { s with
    autoplayInterval := some s.nextTimerId
    intervals := s.nextTimerId :: s.intervals
    nextTimerId := s.nextTimerId + 1
    isPlaying := true
    playIconDisplay := "none"
    pauseIconDisplay := "block" }

/-- Browser call `clearInterval(handle)`: cancels the timer with that identifier; `null`
and identifiers of no active timer are ignored. -/
def clearInterval (handle : Option Nat) (intervals : List Nat) : List Nat :=
  match handle with
  | none => intervals
  | some id => intervals.filter fun t => t != id

/-- Function `stopAutoplay` (lines 164-170). -/
def stopAutoplay (s : State) : State :=
  { s with
    intervals := clearInterval s.autoplayInterval s.intervals
    autoplayInterval := none
    isPlaying := false
    playIconDisplay := "block"
    pauseIconDisplay := "none" }

/-- Function `toggleAutoplay` (lines 172-174). -/
def toggleAutoplay (s : State) : State :=
  if s.isPlaying then stopAutoplay s else startAutoplay s

/-- Function `handleUserInteraction` (lines 176-178). -/
def handleUserInteraction (s : State) : State :=
  stopAutoplay s

/-- The `keydown` listener of the container (lines 125-128). -/
def onKeydown (key : String) (s : State) : Outcome :=
  (if key = "ArrowLeft" then navigate (-1) s else .returned s).andThen fun s1 =>
    if key = "ArrowRight" then navigate 1 s1 else .returned s1

/-- The `click` listener of the item at `index` (lines 130-132). -/
def onItemClick (index : Nat) (s : State) : Outcome :=
  goToIndex index s

/-- The `touchstart` listener (lines 137-141). -/
def onTouchStart (screenX screenY : Int) (s : State) : State :=
  { s with touchStartX := screenX, touchStartY := screenY, isSwiping := true }

/-- The `touchend` listener (lines 143-152). -/
def onTouchEnd (screenX screenY : Int) (s : State) : Outcome :=
  if !s.isSwiping then .returned s
  else
    let diffX := s.touchStartX - screenX
    let diffY := s.touchStartY - screenY
    (if |diffX| > |diffY| ∧ |diffX| > 30 then
      navigate (if diffX > 0 then 1 else -1) (handleUserInteraction s)
    else .returned s).andThen fun s1 =>
      .returned { s1 with isSwiping := false }

/-- A click on the dot at `index` (lines 249-250): the `onclick` handler
`goToIndex(index)` runs first, then the listener `handleUserInteraction`; the
second runs whether or not the first threw. -/
def onDotClick (index : Nat) (s : State) : State :=
  handleUserInteraction (goToIndex index s).state

/-- The callback of line 106 fires: one pending timeout is consumed and the
lock is cleared.  Without a pending timeout nothing happens. -/
def lockTimeout (s : State) : State :=
  if 0 < s.timeouts then { s with isAnimating := false, timeouts := s.timeouts - 1 } else s

/-- The callback of lines 101-104 fires. -/
def animationFrame (s : State) : State :=
  if 0 < s.frames then
    { s with captionAnimation := "fadeIn 0.6s forwards", frames := s.frames - 1 }
  else s

/-- The repeating timer `id` ticks (line 158): `navigate(1)`, when the timer is
still active. -/
def autoplayTick (id : Nat) (s : State) : Outcome :=
  if id ∈ s.intervals then navigate 1 s else .returned s

/-- The bindings of lines 33-37 and 135 on a page with the given items and
caption table, before the `Init` section runs; the dots of lines 246-253 are
created without the `active` class. -/
def beforeInit (slides : List Slide) (items : List ItemView) : State :=
  { imageData := slides
    items := items
    dots := slides.map fun _ => false
    currentTitle := ""
    currentDescription := ""
    captionAnimation := ""
    playIconDisplay := ""
    pauseIconDisplay := ""
    currentIndex := 3
    isAnimating := false
    autoplayInterval := none
    isPlaying := true
    touchStartX := 0
    touchStartY := 0
    isSwiping := false
    timeouts := 0
    frames := 0
    intervals := []
    nextTimerId := 1 }

/-- Lines 255-258: `updateCoverflow(); container.focus(); startAutoplay();`. -/
def init (s : State) : Outcome :=
  (updateCoverflow s).andThen fun s1 => .returned (startAutoplay s1)

/-- An item before the first render; every field is overwritten by
`updateCoverflow`. -/
def unrendered : ItemView :=
  { translateX := 0, translateZ := 0, rotateY := 0, scale := 1, opacity := 1,
    zIndex := 0, active := false }

/-- The state once the script has run on a page with `n` items and the source's
caption table. -/
def pageLoad (n : Nat) : State :=
  (init (beforeInit imageData (List.replicate n unrendered))).state

/-- The state of `pageLoad 7` after the first lock window has passed. -/
def idlePage : State := lockTimeout (pageLoad 7)

/-- One step of a navigation run: `navigate(1)`, `navigate(-1)`, or the
lock-clearing callback of line 106 firing. -/
inductive NavStep where
  | next
  | prev
  | lockCleared

/-- The state after one step of a navigation run. -/
def NavStep.apply : NavStep → State → State
  | .next, s => (navigate 1 s).state
  | .prev, s => (navigate (-1) s).state
  | .lockCleared, s => lockTimeout s

/-- The state after a sequence of navigation steps, first step first. -/
def runNav (steps : List NavStep) (s : State) : State :=
  steps.foldl (fun t step => step.apply t) s

/-- A page with eight items and the seven captions of the source, once loaded
and stepped forward three times, each step after the lock has cleared: it is
idle with index 6, and item 7 has no caption. -/
def eightItemPage : State :=
  runNav [.lockCleared, .next, .lockCleared, .next, .lockCleared, .next, .lockCleared]
    (pageLoad 8)

/-- One call of the autoplay interface. -/
inductive AutoplayCall where
  | toggle
  | stop

/-- The state after one autoplay call. -/
def AutoplayCall.apply : AutoplayCall → State → State
  | .toggle, s => toggleAutoplay s
  | .stop, s => stopAutoplay s

/-- The state after a sequence of autoplay calls, first call first. -/
def runAutoplay (calls : List AutoplayCall) (s : State) : State :=
  calls.foldl (fun t call => call.apply t) s

/-- The autoplay timer is accounted for: when playing, the handle names the one
active repeating timer; when stopped, there is no handle and no active timer. -/
def TimerTracked (s : State) : Prop :=
  (s.isPlaying = true ∧ ∃ id, s.autoplayInterval = some id ∧ s.intervals = [id]) ∨
  (s.isPlaying = false ∧ s.autoplayInterval = none ∧ s.intervals = [])

/-! Results -/

/-- The rational comparisons of `wrapOffset` against half the length, as integer
comparisons. -/
theorem wrapOffset_eq (length : Nat) (index currentIndex : Int) :
    wrapOffset length index currentIndex =
      if (length : Int) < 2 * (index - currentIndex) then index - currentIndex - length
      else if 2 * (index - currentIndex) < -(length : Int) then index - currentIndex + length
      else index - currentIndex := by
  have hgt : (((index - currentIndex : Int) : ℚ) > (length : ℚ) / 2) ↔
      (length : Int) < 2 * (index - currentIndex) := by
    constructor
    · intro h
      have h2 : ((length : Int) : ℚ) < ((2 * (index - currentIndex) : Int) : ℚ) := by
        push_cast
        push_cast at h
        linarith
      exact_mod_cast h2
    · intro h
      have h2 : ((length : Int) : ℚ) < ((2 * (index - currentIndex) : Int) : ℚ) := by
        exact_mod_cast h
      push_cast at h2
      push_cast
      linarith
  have hlt : (((index - currentIndex : Int) : ℚ) < -(length : ℚ) / 2) ↔
      2 * (index - currentIndex) < -(length : Int) := by
    constructor
    · intro h
      have h2 : ((2 * (index - currentIndex) : Int) : ℚ) < ((-(length : Int) : Int) : ℚ) := by
        push_cast
        push_cast at h
        linarith
      exact_mod_cast h2
    · intro h
      have h2 : ((2 * (index - currentIndex) : Int) : ℚ) < ((-(length : Int) : Int) : ℚ) := by
        exact_mod_cast h
      push_cast at h2
      push_cast
      linarith
  unfold wrapOffset
  simp only [hgt, hlt]

/-- Twice the wrapped offset is within the item count, in absolute value, for a
position and a focused index in range. -/
theorem wrapOffset_two_mul_bounds (n i : Nat) (c : Int) (hi : i < n) (hc0 : 0 ≤ c)
    (hcn : c < n) :
    -(n : Int) ≤ 2 * wrapOffset n i c ∧ 2 * wrapOffset n i c ≤ n := by
  rw [wrapOffset_eq]
  split_ifs <;> omega


/-- C8 (as stated, refuted): with two items, focus on index 1 and the item at
position 0, the offset is -1, which equals -N/2 and so is not above it. -/
theorem offset_range_half_open_fails :
    wrapOffset 2 (0 : Nat) 1 = -1 ∧
      ¬ (-((2 : Nat) : ℚ) / 2 < ((wrapOffset 2 (0 : Nat) 1 : Int) : ℚ) ∧
          ((wrapOffset 2 (0 : Nat) 1 : Int) : ℚ) ≤ ((2 : Nat) : ℚ) / 2) := by
  have h : wrapOffset 2 (0 : Nat) 1 = -1 := by
    rw [wrapOffset_eq]; decide
  refine ⟨h, ?_⟩
  rw [h]
  norm_num

/-- C8 (amended): for N ≥ 1 items, a focused index c in [0, N) and a position i
in [0, N), the offset computed by `updateCoverflow` lies in the closed range
[-N/2, N/2]; it equals -N/2 only when it was not wrapped and i - c = -N/2, so
for odd N it lies strictly inside.  For N = 7 and c = 3, position 6 yields 3 and
position 0 yields -3. -/
theorem offset_range_closed (n i : Nat) (c : Int) (hn : 1 ≤ n) (hi : i < n) (hc0 : 0 ≤ c)
    (hcn : c < n) :
    (-(n : ℚ) / 2 ≤ ((wrapOffset n i c : Int) : ℚ) ∧
      ((wrapOffset n i c : Int) : ℚ) ≤ (n : ℚ) / 2) ∧
    (((wrapOffset n i c : Int) : ℚ) = -(n : ℚ) / 2 ↔ 2 * ((i : Int) - c) = -(n : Int)) ∧
    (n % 2 = 1 → -(n : ℚ) / 2 < ((wrapOffset n i c : Int) : ℚ)) ∧
    (wrapOffset 7 (6 : Nat) 3 = 3 ∧ wrapOffset 7 (0 : Nat) 3 = -3) := by
  obtain ⟨hlo, hhi⟩ := wrapOffset_two_mul_bounds n i c hi hc0 hcn
  have hlo' : ((-(n : Int) : Int) : ℚ) ≤ ((2 * wrapOffset n i c : Int) : ℚ) := by
    exact_mod_cast hlo
  have hhi' : ((2 * wrapOffset n i c : Int) : ℚ) ≤ ((n : Int) : ℚ) := by
    exact_mod_cast hhi
  push_cast at hlo' hhi'
  have heq : (((wrapOffset n i c : Int) : ℚ) = -(n : ℚ) / 2) ↔
      2 * wrapOffset n i c = -(n : Int) := by
    constructor
    · intro h
      have h2 : ((2 * wrapOffset n i c : Int) : ℚ) = ((-(n : Int) : Int) : ℚ) := by
        push_cast
        linarith
      exact_mod_cast h2
    · intro h
      have h2 : ((2 * wrapOffset n i c : Int) : ℚ) = ((-(n : Int) : Int) : ℚ) := by
        exact_mod_cast h
      push_cast at h2
      linarith
  refine ⟨⟨by linarith, by linarith⟩, ?_, ?_, ?_, ?_⟩
  · rw [heq, wrapOffset_eq]
    split_ifs <;> omega
  · intro hodd
    have hne : 2 * wrapOffset n i c ≠ -(n : Int) := by omega
    have hne' : ((wrapOffset n i c : Int) : ℚ) ≠ -(n : ℚ) / 2 := fun h => hne (heq.mp h)
    have hle : -(n : ℚ) / 2 ≤ ((wrapOffset n i c : Int) : ℚ) := by linarith
    exact lt_of_le_of_ne hle (Ne.symm hne')
  · rw [wrapOffset_eq]; decide
  · rw [wrapOffset_eq]; decide

/-- C8 (amended), at a concrete input: two items, focus on index 1, position 0. -/
theorem offset_range_closed_witness :
    (-((2 : Nat) : ℚ) / 2 ≤ ((wrapOffset 2 (0 : Nat) 1 : Int) : ℚ) ∧
      ((wrapOffset 2 (0 : Nat) 1 : Int) : ℚ) ≤ ((2 : Nat) : ℚ) / 2) ∧
    (((wrapOffset 2 (0 : Nat) 1 : Int) : ℚ) = -((2 : Nat) : ℚ) / 2 ↔
      2 * (((0 : Nat) : Int) - 1) = -((2 : Nat) : Int)) ∧
    ((2 : Nat) % 2 = 1 → -((2 : Nat) : ℚ) / 2 < ((wrapOffset 2 (0 : Nat) 1 : Int) : ℚ)) ∧
    (wrapOffset 7 (6 : Nat) 3 = 3 ∧ wrapOffset 7 (0 : Nat) 3 = -3) :=
  offset_range_closed 2 0 1 (by decide) (by decide) (by decide) (by decide)

/-- C9: for N items and i, c in [0, N) (so N ≥ 1), the offset computed by
`updateCoverflow` is congruent to i - c modulo N, its absolute value is
min(|i - c|, N - |i - c|), and no integer congruent to i - c modulo N has a
smaller absolute value. -/
theorem offset_is_shortest_path (n i : Nat) (c : Int) (hi : i < n) (hc0 : 0 ≤ c)
    (hcn : c < n) :
    wrapOffset n i c ≡ (i : Int) - c [ZMOD (n : Int)] ∧
    |wrapOffset n i c| = min |(i : Int) - c| ((n : Int) - |(i : Int) - c|) ∧
    ∀ k : Int, k ≡ (i : Int) - c [ZMOD (n : Int)] → |wrapOffset n i c| ≤ |k| := by
  obtain ⟨hlo, hhi⟩ := wrapOffset_two_mul_bounds n i c hi hc0 hcn
  have hcong : (n : Int) ∣ ((i : Int) - c) - wrapOffset n i c := by
    rw [wrapOffset_eq]
    split_ifs
    · exact ⟨1, by ring⟩
    · exact ⟨-1, by ring⟩
    · exact ⟨0, by ring⟩
  refine ⟨(Int.modEq_iff_dvd.mpr hcong), ?_, ?_⟩
  · rw [wrapOffset_eq]
    split_ifs with h1 h2
    · rcases abs_cases ((i : Int) - c - n) with ⟨ha, _⟩ | ⟨ha, _⟩ <;>
        rcases abs_cases ((i : Int) - c) with ⟨hb, _⟩ | ⟨hb, _⟩ <;>
        rw [ha, hb] <;> rcases min_cases ((i : Int) - c) ((n : Int) - ((i : Int) - c)) with
          ⟨hm, _⟩ | ⟨hm, _⟩ <;> omega
    · rcases abs_cases ((i : Int) - c + n) with ⟨ha, _⟩ | ⟨ha, _⟩ <;>
        rcases abs_cases ((i : Int) - c) with ⟨hb, _⟩ | ⟨hb, _⟩ <;>
        rw [ha, hb] <;> rcases min_cases (-((i : Int) - c)) ((n : Int) - -((i : Int) - c)) with
          ⟨hm, _⟩ | ⟨hm, _⟩ <;> omega
    · rcases abs_cases ((i : Int) - c) with ⟨hb, _⟩ | ⟨hb, _⟩ <;>
        rw [hb] <;> rcases min_cases ((i : Int) - c) ((n : Int) - ((i : Int) - c)) with
          ⟨hm, _⟩ | ⟨hm, _⟩ <;>
        rcases min_cases (-((i : Int) - c)) ((n : Int) - -((i : Int) - c)) with
          ⟨hm2, _⟩ | ⟨hm2, _⟩ <;> omega
  · intro k hk
    have hdvd : (n : Int) ∣ wrapOffset n i c - k := by
      have h1 := Int.modEq_iff_dvd.mp hk
      have : wrapOffset n i c - k = (((i : Int) - c) - k) - (((i : Int) - c) - wrapOffset n i c) := by
        ring
      rw [this]
      exact dvd_sub h1 hcong
    obtain ⟨m, hm⟩ := hdvd
    rcases lt_trichotomy m 0 with hneg | hzero | hpos
    · have : (n : Int) * m ≤ -(n : Int) := by nlinarith
      rcases abs_cases (wrapOffset n i c) with ⟨ha, _⟩ | ⟨ha, _⟩ <;>
        rcases abs_cases k with ⟨hb, _⟩ | ⟨hb, _⟩ <;> omega
    · subst hzero
      have : wrapOffset n i c = k := by omega
      rw [this]
    · have : (n : Int) ≤ (n : Int) * m := by nlinarith
      rcases abs_cases (wrapOffset n i c) with ⟨ha, _⟩ | ⟨ha, _⟩ <;>
        rcases abs_cases k with ⟨hb, _⟩ | ⟨hb, _⟩ <;> omega


/-- C9, at a concrete input: seven items, focus on index 3, position 6. -/
theorem offset_is_shortest_path_witness :
    wrapOffset 7 (6 : Nat) 3 ≡ ((6 : Nat) : Int) - 3 [ZMOD ((7 : Nat) : Int)] ∧
    |wrapOffset 7 (6 : Nat) 3| = min |((6 : Nat) : Int) - 3| (((7 : Nat) : Int) - |((6 : Nat) : Int) - 3|) ∧
    ∀ k : Int, k ≡ ((6 : Nat) : Int) - 3 [ZMOD ((7 : Nat) : Int)] → |wrapOffset 7 (6 : Nat) 3| ≤ |k| :=
  offset_is_shortest_path 7 6 3 (by decide) (by decide) (by decide)

/-- C10: over exact rationals, the opacity `updateCoverflow` assigns for an
integer offset is 1 - |offset|/5 when |offset| ≤ 3 and 0 when |offset| > 3; at
|offset| = 4 it is 0 although the linear formula gives 1/5; it always lies in
[0, 1]; and it is 0 exactly when |offset| > 3. -/
theorem opacity_spec (offset : Int) (active : Bool) :
    (|offset| ≤ 3 → (itemView offset active).opacity = 1 - ((|offset| : Int) : ℚ) / 5) ∧
    (3 < |offset| → (itemView offset active).opacity = 0) ∧
    (|offset| = 4 → (itemView offset active).opacity = 0 ∧
      (1 : ℚ) - ((|offset| : Int) : ℚ) * 0.2 = 1 / 5) ∧
    (0 ≤ (itemView offset active).opacity ∧ (itemView offset active).opacity ≤ 1) ∧
    ((itemView offset active).opacity = 0 ↔ 3 < |offset|) := by
  have hop : (itemView offset active).opacity = opacityOf offset := rfl
  rw [hop]
  have habs : (0 : ℚ) ≤ ((|offset| : Int) : ℚ) := by exact_mod_cast abs_nonneg offset
  by_cases h : 3 < |offset|
  · have hv : opacityOf offset = 0 := by simp [opacityOf, h]
    rw [hv]
    refine ⟨fun h3 => absurd h (not_lt.mpr h3), fun _ => rfl, ?_, ⟨le_refl _, by norm_num⟩, ?_⟩
    · intro h4
      refine ⟨rfl, ?_⟩
      rw [h4]
      norm_num
    · exact ⟨fun _ => h, fun _ => rfl⟩
  · have hv : opacityOf offset = 1 - ((|offset| : Int) : ℚ) * 0.2 := by simp [opacityOf, h]
    have hle : ((|offset| : Int) : ℚ) ≤ 3 := by exact_mod_cast not_lt.mp h
    rw [hv]
    have hfifth : (0.2 : ℚ) = 1 / 5 := by norm_num
    rw [hfifth]
    generalize ((|offset| : Int) : ℚ) = a at habs hle
    refine ⟨fun _ => by ring, fun h3 => absurd h3 h, ?_, ⟨by linarith, by linarith⟩, ?_⟩
    · intro h4
      rw [h4] at h
      exact absurd (by decide) h
    · constructor
      · intro h0
        exfalso
        linarith
      · intro h3
        exact absurd h3 h


/-- What `updateCoverflow` leaves behind when no transition is in flight:
the lock is set, every item and dot is rendered for the current index, and the
index, the swipe bookkeeping and the autoplay bindings are as before.  The
lock-clearing timer is armed exactly when the call returned. -/
theorem updateCoverflow_idle (s : State) (h : s.isAnimating = false) :
    (updateCoverflow s).state.isAnimating = true ∧
    (updateCoverflow s).state.currentIndex = s.currentIndex ∧
    (updateCoverflow s).state.items =
      s.items.mapIdx (fun index _ => renderItem s.items.length s.currentIndex index) ∧
    (updateCoverflow s).state.dots =
      s.dots.mapIdx (fun index _ => decide ((index : Int) = s.currentIndex)) ∧
    (updateCoverflow s).state.imageData = s.imageData ∧
    (updateCoverflow s).state.isPlaying = s.isPlaying ∧
    (updateCoverflow s).state.autoplayInterval = s.autoplayInterval ∧
    (updateCoverflow s).state.intervals = s.intervals ∧
    (updateCoverflow s).state.nextTimerId = s.nextTimerId ∧
    (updateCoverflow s).state.timeouts =
      s.timeouts + (if (updateCoverflow s).isThrow then 0 else 1) := by
  unfold updateCoverflow
  rw [if_neg (by simp [h])]
  cases hs : slideAt s.imageData s.currentIndex <;>
    simp [Outcome.state, Outcome.isThrow]

/-- With a caption for the current index, `updateCoverflow` returns. -/
theorem updateCoverflow_returns (s : State) (h : s.isAnimating = false)
    (h0 : 0 ≤ s.currentIndex) (h1 : s.currentIndex < s.imageData.length) :
    (updateCoverflow s).isThrow = false := by
  unfold updateCoverflow
  rw [if_neg (by simp [h])]
  have hlt : s.currentIndex.toNat < s.imageData.length := by omega
  have hs : slideAt s.imageData s.currentIndex = some (s.imageData[s.currentIndex.toNat]) := by
    unfold slideAt
    rw [if_pos h0]
    exact List.getElem?_eq_getElem hlt
  rw [hs]
  rfl

/-- The index `navigate` computes: for a direction of one step and an index
that is not negative, the truncating remainder is the representative in [0, length). -/
theorem navigate_index (n : Nat) (c d : Int) (hn : 1 ≤ n) (hc0 : 0 ≤ c)
    (hd : d = 1 ∨ d = -1) :
    (c + d + n).tmod n = (c + d) % n ∧ 0 ≤ (c + d + n).tmod n ∧ (c + d + n).tmod n < n := by
  have hnn : (0 : Int) ≤ (n : Int) := by omega
  have hnum : 0 ≤ c + d + n := by rcases hd with rfl | rfl <;> omega
  rw [Int.tmod_eq_emod hnum hnn]
  have hpos : (0 : Int) < (n : Int) := by omega
  refine ⟨by simp, Int.emod_nonneg _ (by omega), Int.emod_lt_of_pos _ hpos⟩


/-- A call of `navigate` with no transition in flight is `updateCoverflow` on
the state with the stepped index, and that state is idle. -/
theorem navigate_idle (s : State) (d : Int) (hidle : s.isAnimating = false) :
    navigate d s =
      updateCoverflow
        { s with
          currentIndex := (s.currentIndex + d + s.items.length).tmod s.items.length } := by
  unfold navigate
  rw [if_neg (by simp [hidle])]

/-- One `navigate` call by one step with no transition in flight, on a page
with at least one item and an index that is not negative: the new index is the
remainder of c + d, the lock is set, and the lock-clearing timer is armed unless
the call threw, which it does not when the new index has a caption. -/
theorem navigate_step (s : State) (d : Int) (hidle : s.isAnimating = false)
    (hn : 1 ≤ s.items.length) (hc0 : 0 ≤ s.currentIndex) (hd : d = 1 ∨ d = -1) :
    (navigate d s).state.currentIndex = (s.currentIndex + d) % (s.items.length : Int) ∧
    (navigate d s).state.isAnimating = true ∧
    (navigate d s).state.items.length = s.items.length ∧
    (navigate d s).state.imageData = s.imageData ∧
    (navigate d s).state.timeouts = s.timeouts + (if (navigate d s).isThrow then 0 else 1) ∧
    ((s.currentIndex + d) % (s.items.length : Int) < (s.imageData.length : Int) →
      (navigate d s).isThrow = false) := by
  obtain ⟨hmod, hlo, hhi⟩ := navigate_index s.items.length s.currentIndex d hn hc0 hd
  rw [navigate_idle s d hidle]
  obtain ⟨hlock, hidx, hitems, -, hdata, -, -, -, -, htime⟩ :=
    updateCoverflow_idle
      { s with currentIndex := (s.currentIndex + d + s.items.length).tmod s.items.length } hidle
  refine ⟨?_, hlock, ?_, hdata, htime, ?_⟩
  · rw [hidx]
    exact hmod
  · rw [hitems]
    simp
  · intro hslide
    have hcap : (s.currentIndex + d + s.items.length).tmod s.items.length
        < (s.imageData.length : Int) := by
      rw [hmod]
      exact hslide
    exact updateCoverflow_returns
      { s with currentIndex := (s.currentIndex + d + s.items.length).tmod s.items.length }
      hidle hlo hcap

/-- A call of `navigate` while a transition is in flight returns at once. -/
theorem navigate_locked (s : State) (d : Int) (hlock : s.isAnimating = true) :
    navigate d s = .returned s := by
  unfold navigate
  rw [if_pos hlock]

/-- One `navigate` call by one step keeps the item count and keeps an index
that is in range in range, whether or not a transition is in flight. -/
theorem navigate_keeps_range (s : State) (d : Int) (n : Nat) (hd : d = 1 ∨ d = -1)
    (hn : 1 ≤ n) (hlen : s.items.length = n) (hc0 : 0 ≤ s.currentIndex)
    (hcn : s.currentIndex < n) :
    (navigate d s).state.items.length = n ∧ 0 ≤ (navigate d s).state.currentIndex ∧
      (navigate d s).state.currentIndex < n := by
  cases hidle : s.isAnimating
  · subst hlen
    obtain ⟨hidx, -, hitems, -⟩ := navigate_step s d hidle hn hc0 hd
    have hpos : (0 : Int) < (s.items.length : Int) := by omega
    rw [hidx]
    exact ⟨hitems, Int.emod_nonneg _ (by omega), Int.emod_lt_of_pos _ hpos⟩
  · rw [navigate_locked s d hidle]
    exact ⟨hlen, hc0, hcn⟩

/-- The lock-clearing callback changes neither the items nor the index. -/
theorem lockTimeout_frame (s : State) :
    (lockTimeout s).items = s.items ∧ (lockTimeout s).currentIndex = s.currentIndex ∧
      (lockTimeout s).imageData = s.imageData := by
  unfold lockTimeout
  split_ifs <;> simp

/-- Every step of a navigation run keeps the item count and keeps an index that
is in range in range. -/
theorem NavStep.apply_keeps_range (step : NavStep) (s : State) (n : Nat) (hn : 1 ≤ n)
    (hlen : s.items.length = n) (hc0 : 0 ≤ s.currentIndex) (hcn : s.currentIndex < n) :
    (step.apply s).items.length = n ∧ 0 ≤ (step.apply s).currentIndex ∧
      (step.apply s).currentIndex < n := by
  cases step
  · exact navigate_keeps_range s 1 n (Or.inl rfl) hn hlen hc0 hcn
  · exact navigate_keeps_range s (-1) n (Or.inr rfl) hn hlen hc0 hcn
  · obtain ⟨hitems, hidx, -⟩ := lockTimeout_frame s
    show (lockTimeout s).items.length = n ∧ 0 ≤ (lockTimeout s).currentIndex ∧
      (lockTimeout s).currentIndex < n
    rw [hitems, hidx]
    exact ⟨hlen, hc0, hcn⟩

/-- A whole navigation run keeps the item count and keeps an index that is in
range in range. -/
theorem runNav_keeps_range (steps : List NavStep) (s : State) (n : Nat) (hn : 1 ≤ n)
    (hlen : s.items.length = n) (hc0 : 0 ≤ s.currentIndex) (hcn : s.currentIndex < n) :
    (runNav steps s).items.length = n ∧ 0 ≤ (runNav steps s).currentIndex ∧
      (runNav steps s).currentIndex < n := by
  induction steps generalizing s with
  | nil => exact ⟨hlen, hc0, hcn⟩
  | cons step rest ih =>
    obtain ⟨h1, h2, h3⟩ := NavStep.apply_keeps_range step s n hn hlen hc0 hcn
    exact ih (step.apply s) h1 h2 h3

/-- C1: with N ≥ 1 items, an index c ≥ 0 (in particular c in [0, N)) and no
transition in flight, `navigate(d)` for d = +1 or d = -1 sets `currentIndex` to
the one value of [0, N) congruent to c + d modulo N and leaves `isAnimating`
true.  On the loaded page with seven items and index 3, three `navigate(1)`
calls, each followed by the lock clearing, give index 6, and one more gives
index 0. -/
theorem navigate_wraps (s : State) (d : Int) (hidle : s.isAnimating = false)
    (hn : 1 ≤ s.items.length) (hc0 : 0 ≤ s.currentIndex) (hd : d = 1 ∨ d = -1) :
    (0 ≤ (navigate d s).state.currentIndex ∧
      (navigate d s).state.currentIndex < s.items.length ∧
      (navigate d s).state.currentIndex ≡ s.currentIndex + d [ZMOD (s.items.length : Int)] ∧
      (∀ k : Int, 0 ≤ k → k < s.items.length →
        k ≡ s.currentIndex + d [ZMOD (s.items.length : Int)] →
        k = (navigate d s).state.currentIndex) ∧
      (navigate d s).state.isAnimating = true ∧
      (navigate d s).state.items.length = s.items.length) ∧
    (idlePage.items.length = 7 ∧ idlePage.currentIndex = 3 ∧ idlePage.isAnimating = false ∧
      (lockTimeout (navigate 1 (lockTimeout (navigate 1
        (lockTimeout (navigate 1 idlePage).state)).state)).state).currentIndex = 6 ∧
      (lockTimeout (navigate 1 (lockTimeout (navigate 1
        (lockTimeout (navigate 1 idlePage).state)).state)).state).isAnimating = false ∧
      (navigate 1 (lockTimeout (navigate 1 (lockTimeout (navigate 1
        (lockTimeout (navigate 1 idlePage).state)).state)).state)).state.currentIndex = 0) := by
  refine ⟨?_, by decide⟩
  obtain ⟨hidx, hlock, hitems, -⟩ := navigate_step s d hidle hn hc0 hd
  have hpos : (0 : Int) < (s.items.length : Int) := by omega
  rw [hidx, hlock, hitems]
  refine ⟨Int.emod_nonneg _ (by omega), Int.emod_lt_of_pos _ hpos, ?_, ?_, rfl, rfl⟩
  · exact Int.emod_emod_of_dvd _ (dvd_refl _)
  · intro k hk0 hkn hk
    have hk2 : k % (s.items.length : Int) = (s.currentIndex + d) % (s.items.length : Int) := hk
    rw [← hk2]
    exact (Int.emod_eq_of_lt hk0 hkn).symm

/-- C1, at a concrete input: the loaded seven-item page after its first lock
window, one step forward. -/
theorem navigate_wraps_witness :
    (0 ≤ (navigate 1 idlePage).state.currentIndex ∧
      (navigate 1 idlePage).state.currentIndex < idlePage.items.length ∧
      (navigate 1 idlePage).state.currentIndex ≡
        idlePage.currentIndex + 1 [ZMOD (idlePage.items.length : Int)] ∧
      (∀ k : Int, 0 ≤ k → k < idlePage.items.length →
        k ≡ idlePage.currentIndex + 1 [ZMOD (idlePage.items.length : Int)] →
        k = (navigate 1 idlePage).state.currentIndex) ∧
      (navigate 1 idlePage).state.isAnimating = true ∧
      (navigate 1 idlePage).state.items.length = idlePage.items.length) ∧
    (idlePage.items.length = 7 ∧ idlePage.currentIndex = 3 ∧ idlePage.isAnimating = false ∧
      (lockTimeout (navigate 1 (lockTimeout (navigate 1
        (lockTimeout (navigate 1 idlePage).state)).state)).state).currentIndex = 6 ∧
      (lockTimeout (navigate 1 (lockTimeout (navigate 1
        (lockTimeout (navigate 1 idlePage).state)).state)).state).isAnimating = false ∧
      (navigate 1 (lockTimeout (navigate 1 (lockTimeout (navigate 1
        (lockTimeout (navigate 1 idlePage).state)).state)).state)).state.currentIndex = 0) :=
  navigate_wraps idlePage 1 (by decide) (by decide) (by decide) (by decide)

/-- C2: with N ≥ 1 items and `currentIndex` in [0, N) at the start, after every
step (the first k steps, for every k) of every finite sequence of `navigate(1)`
and `navigate(-1)` calls and lock-clearing timer events, in any order,
`currentIndex` is in [0, N) (and the item count is still N). -/
theorem currentIndex_stays_in_range (s : State) (steps : List NavStep) (k : Nat)
    (hn : 1 ≤ s.items.length) (hc0 : 0 ≤ s.currentIndex)
    (hcn : s.currentIndex < s.items.length) :
    (runNav (steps.take k) s).items.length = s.items.length ∧
      0 ≤ (runNav (steps.take k) s).currentIndex ∧
      (runNav (steps.take k) s).currentIndex < s.items.length :=
  runNav_keeps_range (steps.take k) s s.items.length hn rfl hc0 hcn

/-- C2, at a concrete input: the loaded seven-item page and the first ten steps
of a run that wraps forward past the last item. -/
theorem currentIndex_stays_in_range_witness :
    (runNav (List.take 10 [NavStep.lockCleared, .next, .next, .lockCleared, .next, .prev,
      .lockCleared, .next, .lockCleared, .next, .lockCleared, .prev]) (pageLoad 7)).items.length
      = (pageLoad 7).items.length ∧
    0 ≤ (runNav (List.take 10 [NavStep.lockCleared, .next, .next, .lockCleared, .next, .prev,
      .lockCleared, .next, .lockCleared, .next, .lockCleared, .prev]) (pageLoad 7)).currentIndex ∧
    (runNav (List.take 10 [NavStep.lockCleared, .next, .next, .lockCleared, .next, .prev,
      .lockCleared, .next, .lockCleared, .next, .lockCleared, .prev]) (pageLoad 7)).currentIndex
      < (pageLoad 7).items.length :=
  currentIndex_stays_in_range (pageLoad 7) _ 10 (by decide) (by decide) (by decide)

/-- A call of `goToIndex` while a transition is in flight, or for the current
index, returns at once. -/
theorem goToIndex_skips (s : State) (i : Int)
    (h : i = s.currentIndex ∨ s.isAnimating = true) : goToIndex i s = .returned s := by
  unfold goToIndex
  rcases h with h | h
  · simp [h]
  · simp [h]

/-- A call of `goToIndex` for another index with no transition in flight is
`updateCoverflow` on the state with that index. -/
theorem goToIndex_idle (s : State) (i : Int) (hne : i ≠ s.currentIndex)
    (hidle : s.isAnimating = false) :
    goToIndex i s = updateCoverflow { s with currentIndex := i } := by
  unfold goToIndex
  simp [hne, hidle]

/-- C3: while a transition is in flight (`isAnimating` true), `navigate(d)` and
`goToIndex(i)` return the state exactly as it was, for every d and i: index,
flags, rendered items and dots, and the pending timers and callbacks are all
unchanged, so nothing is left to run once the lock clears. -/
theorem locked_requests_are_dropped (s : State) (d i : Int) (hlock : s.isAnimating = true) :
    navigate d s = .returned s ∧ goToIndex i s = .returned s ∧
    (navigate d s).state.timeouts = s.timeouts ∧ (goToIndex i s).state.timeouts = s.timeouts ∧
    (navigate d s).state.frames = s.frames ∧ (goToIndex i s).state.frames = s.frames ∧
    lockTimeout (navigate d s).state = lockTimeout s ∧
    lockTimeout (goToIndex i s).state = lockTimeout s := by
  have h1 := navigate_locked s d hlock
  have h2 := goToIndex_skips s i (Or.inr hlock)
  rw [h1, h2]
  exact ⟨rfl, rfl, rfl, rfl, rfl, rfl, rfl, rfl⟩

/-- C3, at a concrete input: the seven-item page right after loading, while its
first transition is in flight. -/
theorem locked_requests_are_dropped_witness :
    navigate 1 (pageLoad 7) = .returned (pageLoad 7) ∧
    goToIndex 5 (pageLoad 7) = .returned (pageLoad 7) ∧
    (navigate 1 (pageLoad 7)).state.timeouts = (pageLoad 7).timeouts ∧
    (goToIndex 5 (pageLoad 7)).state.timeouts = (pageLoad 7).timeouts ∧
    (navigate 1 (pageLoad 7)).state.frames = (pageLoad 7).frames ∧
    (goToIndex 5 (pageLoad 7)).state.frames = (pageLoad 7).frames ∧
    lockTimeout (navigate 1 (pageLoad 7)).state = lockTimeout (pageLoad 7) ∧
    lockTimeout (goToIndex 5 (pageLoad 7)).state = lockTimeout (pageLoad 7) :=
  locked_requests_are_dropped (pageLoad 7) 1 5 (by decide)

/-- C4: `goToIndex(i)` returns the state exactly as it was when i is the
current index or a transition is in flight.  Otherwise it sets `currentIndex`
to i, sets `isAnimating`, leaves `isPlaying` alone and renders every item and
dot for index i; when i is in [0, N) and every item has a caption it also
returns normally, shows the caption of slide i and arms the lock-clearing
timer.  `goToIndex(currentIndex)` never changes the state. -/
theorem goToIndex_spec (s : State) (i : Int) :
    ((i = s.currentIndex ∨ s.isAnimating = true) → goToIndex i s = .returned s) ∧
    ((i ≠ s.currentIndex ∧ s.isAnimating = false) →
      (goToIndex i s).state.currentIndex = i ∧
      (goToIndex i s).state.isAnimating = true ∧
      (goToIndex i s).state.isPlaying = s.isPlaying ∧
      (goToIndex i s).state.items.length = s.items.length ∧
      (∀ k : Nat, k < s.items.length →
        (goToIndex i s).state.items[k]? = some (renderItem s.items.length i k)) ∧
      (goToIndex i s).state.dots.length = s.dots.length ∧
      (∀ k : Nat, k < s.dots.length →
        (goToIndex i s).state.dots[k]? = some (decide ((k : Int) = i))) ∧
      ((0 ≤ i ∧ i < s.items.length ∧ s.items.length ≤ s.imageData.length) →
        (goToIndex i s).isThrow = false ∧
        some (Slide.mk (goToIndex i s).state.currentTitle
          (goToIndex i s).state.currentDescription) = slideAt s.imageData i ∧
        (goToIndex i s).state.timeouts = s.timeouts + 1)) ∧
    goToIndex s.currentIndex s = .returned s := by
  refine ⟨goToIndex_skips s i, ?_, goToIndex_skips s s.currentIndex (Or.inl rfl)⟩
  rintro ⟨hne, hidle⟩
  rw [goToIndex_idle s i hne hidle]
  obtain ⟨hlock, hidx, hitems, hdots, -, hplay, -, -, -, htime⟩ :=
    updateCoverflow_idle { s with currentIndex := i } hidle
  refine ⟨hidx, hlock, hplay, ?_, ?_, ?_, ?_, ?_⟩
  · rw [hitems]; simp
  · intro k hk
    rw [hitems]
    simp [hk]
  · rw [hdots]; simp
  · intro k hk
    rw [hdots]
    simp [hk]
  · rintro ⟨h0, h1, halign⟩
    have hcap : i < (s.imageData.length : Int) := by omega
    have hret := updateCoverflow_returns { s with currentIndex := i } hidle h0 hcap
    refine ⟨hret, ?_, ?_⟩
    · unfold updateCoverflow
      rw [if_neg (by simp [hidle])]
      cases hs : slideAt s.imageData i with
      | none =>
        exfalso
        unfold slideAt at hs
        rw [if_pos h0] at hs
        have hlt : i.toNat < s.imageData.length := by omega
        rw [List.getElem?_eq_getElem hlt] at hs
        exact Option.noConfusion hs
      | some slide =>
        show some (Slide.mk _ _) = _
        simp [hs, Outcome.state]
    · rw [htime, hret]
      rfl


/-- A `navigate` call by one step from an idle state, followed by the lock
clearing, when the index it moves to has a caption: the index has moved by one
step modulo the item count, and the state is idle again with the same items and
captions. -/
theorem navigate_then_unlock (s : State) (d : Int) (hidle : s.isAnimating = false)
    (hn : 1 ≤ s.items.length) (hc0 : 0 ≤ s.currentIndex) (hd : d = 1 ∨ d = -1)
    (hcap : (s.currentIndex + d) % (s.items.length : Int) < (s.imageData.length : Int)) :
    (lockTimeout (navigate d s).state).currentIndex
      = (s.currentIndex + d) % (s.items.length : Int) ∧
    (lockTimeout (navigate d s).state).isAnimating = false ∧
    (lockTimeout (navigate d s).state).items.length = s.items.length ∧
    (lockTimeout (navigate d s).state).imageData = s.imageData ∧
    (navigate d s).isThrow = false := by
  obtain ⟨hidx, -, hitems, hdata, htime, hret⟩ := navigate_step s d hidle hn hc0 hd
  rw [hret hcap] at htime
  have hpending : 0 < (navigate d s).state.timeouts := by
    rw [htime]
    simp
  obtain ⟨fitems, fidx, fdata⟩ := lockTimeout_frame (navigate d s).state
  refine ⟨by rw [fidx, hidx], ?_, by rw [fitems, hitems], by rw [fdata, hdata], hret hcap⟩
  unfold lockTimeout
  rw [if_pos hpending]

/-- C5 (as stated, refuted): on the page with eight items and the seven
captions of the source, idle at index 6, `navigate(1)` moves to index 7 and
throws before the lock-clearing timer is armed; no timer is pending, the lock
stays set, `navigate(-1)` is dropped and `currentIndex` ends at 7, not 6. -/
theorem navigate_inverse_fails_without_caption :
    eightItemPage.items.length = 8 ∧ eightItemPage.currentIndex = 6 ∧
    eightItemPage.isAnimating = false ∧ eightItemPage.imageData.length = 7 ∧
    (navigate 1 eightItemPage).isThrow = true ∧
    (navigate 1 eightItemPage).state.timeouts = 0 ∧
    (lockTimeout (navigate 1 eightItemPage).state).isAnimating = true ∧
    (navigate (-1) (lockTimeout (navigate 1 eightItemPage).state)).state.currentIndex = 7 ∧
    ¬ ((navigate (-1) (lockTimeout (navigate 1 eightItemPage).state)).state.currentIndex
      = eightItemPage.currentIndex) := by
  decide

/-- C5 (amended): with N ≥ 1 items, an index c in [0, N), no transition in
flight and a direction d = +1 or d = -1 such that the index `navigate(d)` moves
to, (c + d) mod N, has a caption in `imageData`: `navigate(d)` returns, the
lock-clearing timer it armed clears the lock, and `navigate(-d)` then brings
`currentIndex` back to c.  Both orders are covered, d = +1 and d = -1. -/
theorem navigate_inverse (s : State) (d : Int) (hidle : s.isAnimating = false)
    (hn : 1 ≤ s.items.length) (hc0 : 0 ≤ s.currentIndex)
    (hcn : s.currentIndex < s.items.length) (hd : d = 1 ∨ d = -1)
    (hcap : (s.currentIndex + d) % (s.items.length : Int) < (s.imageData.length : Int)) :
    (navigate d s).isThrow = false ∧
    (lockTimeout (navigate d s).state).isAnimating = false ∧
    (navigate (-d) (lockTimeout (navigate d s).state)).state.currentIndex
      = s.currentIndex := by
  have hpos : (0 : Int) < (s.items.length : Int) := by omega
  obtain ⟨hidx, hidle2, hitems, -, hret⟩ := navigate_then_unlock s d hidle hn hc0 hd hcap
  refine ⟨hret, hidle2, ?_⟩
  have hn2 : 1 ≤ (lockTimeout (navigate d s).state).items.length := by
    rw [hitems]
    exact hn
  have hc2 : 0 ≤ (lockTimeout (navigate d s).state).currentIndex := by
    rw [hidx]
    exact Int.emod_nonneg _ (by omega)
  have he : -d = 1 ∨ -d = -1 := by
    rcases hd with h | h
    · exact Or.inr (by rw [h])
    · exact Or.inl (by rw [h]; rfl)
  obtain ⟨hidx2, -⟩ :=
    navigate_step (lockTimeout (navigate d s).state) (-d) hidle2 hn2 hc2 he
  rw [hidx2, hidx, hitems, Int.emod_add_emod]
  have hsum : s.currentIndex + d + -d = s.currentIndex := by omega
  rw [hsum]
  exact Int.emod_eq_of_lt hc0 hcn

/-- C5 (amended), at a concrete input: the page with eight items and seven
captions, idle at index 6, one step back and forward again; index 5 has a
caption. -/
theorem navigate_inverse_witness :
    (navigate (-1) eightItemPage).isThrow = false ∧
    (lockTimeout (navigate (-1) eightItemPage).state).isAnimating = false ∧
    (navigate (-(-1)) (lockTimeout (navigate (-1) eightItemPage).state)).state.currentIndex
      = eightItemPage.currentIndex :=
  navigate_inverse eightItemPage (-1) (by decide) (by decide) (by decide) (by decide)
    (by decide) (by decide)

/-- The autoplay bindings and timers are untouched by `updateCoverflow`. -/
theorem updateCoverflow_autoplay (s : State) :
    (updateCoverflow s).state.isPlaying = s.isPlaying ∧
    (updateCoverflow s).state.autoplayInterval = s.autoplayInterval ∧
    (updateCoverflow s).state.intervals = s.intervals := by
  cases hidle : s.isAnimating
  · obtain ⟨-, -, -, -, -, h1, h2, h3, -⟩ := updateCoverflow_idle s hidle
    exact ⟨h1, h2, h3⟩
  · unfold updateCoverflow
    rw [if_pos hidle]
    exact ⟨rfl, rfl, rfl⟩

/-- The autoplay bindings and timers are untouched by `navigate`. -/
theorem navigate_autoplay (s : State) (d : Int) :
    (navigate d s).state.isPlaying = s.isPlaying ∧
    (navigate d s).state.autoplayInterval = s.autoplayInterval ∧
    (navigate d s).state.intervals = s.intervals := by
  unfold navigate
  split_ifs
  · exact ⟨rfl, rfl, rfl⟩
  · exact updateCoverflow_autoplay _

/-- The autoplay bindings and timers are untouched by `goToIndex`. -/
theorem goToIndex_autoplay (s : State) (i : Int) :
    (goToIndex i s).state.isPlaying = s.isPlaying ∧
    (goToIndex i s).state.autoplayInterval = s.autoplayInterval ∧
    (goToIndex i s).state.intervals = s.intervals := by
  unfold goToIndex
  split_ifs
  · exact updateCoverflow_autoplay _
  · exact ⟨rfl, rfl, rfl⟩

/-- C6 (the code departs from it): the `keydown` listener and the item `click`
listener never touch autoplay, for any key, item and state; on the loaded
seven-item page `ArrowRight`, `ArrowLeft` and a click on item 5 move the index
and leave `isPlaying` true with the repeating timer still active, whereas a
click on dot 5 and a left swipe stop autoplay and cancel the timer. -/
theorem key_and_item_click_keep_autoplay :
    (∀ (s : State) (key : String),
      (onKeydown key s).state.isPlaying = s.isPlaying ∧
      (onKeydown key s).state.intervals = s.intervals) ∧
    (∀ (s : State) (index : Nat),
      (onItemClick index s).state.isPlaying = s.isPlaying ∧
      (onItemClick index s).state.intervals = s.intervals) ∧
    (idlePage.isPlaying = true ∧ idlePage.intervals = [1] ∧ idlePage.currentIndex = 3) ∧
    ((onKeydown "ArrowRight" idlePage).state.currentIndex = 4 ∧
      (onKeydown "ArrowRight" idlePage).state.isPlaying = true ∧
      (onKeydown "ArrowRight" idlePage).state.intervals = [1]) ∧
    ((onKeydown "ArrowLeft" idlePage).state.currentIndex = 2 ∧
      (onKeydown "ArrowLeft" idlePage).state.isPlaying = true ∧
      (onKeydown "ArrowLeft" idlePage).state.intervals = [1]) ∧
    ((onItemClick 5 idlePage).state.currentIndex = 5 ∧
      (onItemClick 5 idlePage).state.isPlaying = true ∧
      (onItemClick 5 idlePage).state.intervals = [1]) ∧
    ((onDotClick 5 idlePage).currentIndex = 5 ∧
      (onDotClick 5 idlePage).isPlaying = false ∧
      (onDotClick 5 idlePage).intervals = []) ∧
    ((onTouchEnd 100 0 (onTouchStart 200 0 idlePage)).state.currentIndex = 4 ∧
      (onTouchEnd 100 0 (onTouchStart 200 0 idlePage)).state.isPlaying = false ∧
      (onTouchEnd 100 0 (onTouchStart 200 0 idlePage)).state.intervals = []) := by
  refine ⟨?_, ?_, by decide, by decide, by decide, by decide, by decide, by decide⟩
  · intro s key
    unfold onKeydown
    by_cases hl : key = "ArrowLeft" <;> by_cases hr : key = "ArrowRight"
    · rw [hl] at hr
      exact absurd hr (by decide)
    · simp only [if_pos hl, if_neg hr]
      obtain ⟨h1, -, h3⟩ := navigate_autoplay s (-1)
      cases hnav : navigate (-1) s <;> rw [hnav] at h1 h3 <;> exact ⟨h1, h3⟩
    · simp only [if_neg hl, if_pos hr]
      obtain ⟨h1, -, h3⟩ := navigate_autoplay s 1
      exact ⟨h1, h3⟩
    · simp only [if_neg hl, if_neg hr]
      exact ⟨rfl, rfl⟩
  · intro s index
    obtain ⟨h1, -, h3⟩ := goToIndex_autoplay s index
    exact ⟨h1, h3⟩


/-- Calling `stopAutoplay` twice is the same as calling it once, in any state. -/
theorem stopAutoplay_idempotent (s : State) :
    stopAutoplay (stopAutoplay s) = stopAutoplay s := by
  simp [stopAutoplay, clearInterval]

/-- After `stopAutoplay` from a state whose timer is accounted for, autoplay is
off and no repeating timer is active. -/
theorem stopAutoplay_tracked (s : State) (h : TimerTracked s) :
    (stopAutoplay s).isPlaying = false ∧ (stopAutoplay s).autoplayInterval = none ∧
      (stopAutoplay s).intervals = [] := by
  refine ⟨rfl, rfl, ?_⟩
  show clearInterval s.autoplayInterval s.intervals = []
  rcases h with ⟨-, id, hid, hint⟩ | ⟨-, hid, hint⟩
  · rw [hid, hint]
    simp [clearInterval]
  · rw [hid, hint]
    rfl

/-- Both autoplay calls keep the timer accounted for. -/
theorem AutoplayCall.apply_tracked (call : AutoplayCall) (s : State) (h : TimerTracked s) :
    TimerTracked (call.apply s) := by
  have hstop : TimerTracked (stopAutoplay s) := Or.inr (stopAutoplay_tracked s h)
  cases call
  · show TimerTracked (toggleAutoplay s)
    unfold toggleAutoplay
    split_ifs with hp
    · exact hstop
    · rcases h with ⟨hplay, -⟩ | ⟨-, -, hint⟩
      · exact absurd hplay hp
      · refine Or.inl ⟨rfl, s.nextTimerId, rfl, ?_⟩
        show s.nextTimerId :: s.intervals = [s.nextTimerId]
        rw [hint]
  · exact hstop

/-- A sequence of autoplay calls keeps the timer accounted for. -/
theorem runAutoplay_tracked (calls : List AutoplayCall) (s : State) (h : TimerTracked s) :
    TimerTracked (runAutoplay calls s) := by
  induction calls generalizing s with
  | nil => exact h
  | cons call rest ih => exact ih (call.apply s) (AutoplayCall.apply_tracked call s h)

/-- C7: from a state with `isPlaying` true and one active repeating timer, the
one `autoplayInterval` names (the state after initialisation), after every
finite sequence of `toggleAutoplay` and `stopAutoplay` calls the number of
active timers is 1 when `isPlaying` is true and 0 when it is false; from every
such state `stopAutoplay()` followed by `startAutoplay()` gives `isPlaying` true
and exactly one active timer; and `stopAutoplay` is idempotent in every state. -/
theorem autoplay_single_timer (s : State) (calls : List AutoplayCall) (id : Nat)
    (hplay : s.isPlaying = true) (hhandle : s.autoplayInterval = some id)
    (htimers : s.intervals = [id]) :
    (runAutoplay calls s).intervals.length
      = (if (runAutoplay calls s).isPlaying then 1 else 0) ∧
    ((startAutoplay (stopAutoplay (runAutoplay calls s))).isPlaying = true ∧
      (startAutoplay (stopAutoplay (runAutoplay calls s))).intervals.length = 1 ∧
      some (startAutoplay (stopAutoplay (runAutoplay calls s))).intervals
        = (startAutoplay (stopAutoplay (runAutoplay calls s))).autoplayInterval.map
            fun t => [t]) ∧
    (∀ t : State, stopAutoplay (stopAutoplay t) = stopAutoplay t) := by
  have h0 : TimerTracked s := Or.inl ⟨hplay, id, hhandle, htimers⟩
  have h := runAutoplay_tracked calls s h0
  refine ⟨?_, ?_, stopAutoplay_idempotent⟩
  · rcases h with ⟨hp, t, -, hint⟩ | ⟨hp, -, hint⟩
    · rw [hp, hint]
      rfl
    · rw [hp, hint]
      rfl
  · obtain ⟨-, -, hint⟩ := stopAutoplay_tracked _ h
    refine ⟨rfl, ?_, ?_⟩
    · show ((stopAutoplay (runAutoplay calls s)).nextTimerId ::
        (stopAutoplay (runAutoplay calls s)).intervals).length = 1
      rw [hint]
      rfl
    · show some ((stopAutoplay (runAutoplay calls s)).nextTimerId ::
        (stopAutoplay (runAutoplay calls s)).intervals) = _
      rw [hint]
      rfl

/-- C7, at a concrete input: the seven-item page right after loading, then
toggle, toggle, stop, stop, toggle. -/
theorem autoplay_single_timer_witness :
    (runAutoplay [.toggle, .toggle, .stop, .stop, .toggle] (pageLoad 7)).intervals.length
      = (if (runAutoplay [.toggle, .toggle, .stop, .stop, .toggle] (pageLoad 7)).isPlaying
          then 1 else 0) ∧
    ((startAutoplay (stopAutoplay
        (runAutoplay [.toggle, .toggle, .stop, .stop, .toggle] (pageLoad 7)))).isPlaying = true ∧
      (startAutoplay (stopAutoplay
        (runAutoplay [.toggle, .toggle, .stop, .stop, .toggle] (pageLoad 7)))).intervals.length
        = 1 ∧
      some (startAutoplay (stopAutoplay
        (runAutoplay [.toggle, .toggle, .stop, .stop, .toggle] (pageLoad 7)))).intervals
        = (startAutoplay (stopAutoplay
            (runAutoplay [.toggle, .toggle, .stop, .stop, .toggle]
              (pageLoad 7)))).autoplayInterval.map fun t => [t]) ∧
    (∀ t : State, stopAutoplay (stopAutoplay t) = stopAutoplay t) :=
  autoplay_single_timer (pageLoad 7) [.toggle, .toggle, .stop, .stop, .toggle] 1
    (by decide) (by decide) (by decide)

end Coverflow
